import Mathlib

/-!
Shallow embedding of the GPU blacklist rule engine
(chrome/browser/gpu_blacklist.cc): the criterion matchers, the recursive
entry evaluator, the rule-set loader and the feature aggregator, together
with theorems settling the specification's claims about them.

Conventions of the embedding:
  * machine integers become `Nat`/`Int` (with an explicit `% 2^32` where the
    source reinterprets an `int` as `uint32`);
  * fallible operations return `Option`;
  * an out-of-bounds `std::vector` read (undefined behavior in the source)
    is modelled by an `Option`-returning index, so a function that can hit
    it returns `Option Bool` and yields `none` exactly on the undefined
    path;
  * `float` values are modelled as `ℚ`: the claims about them only compare
    values, and comparison of (finite, non-NaN) floats agrees with the
    rational order.
Code of the repository that lives outside src/ (the gpu_blacklist.h class
declaration, base::Version, base string helpers, gpu_util feature-name
table) is modelled from the spec; each such definition carries a doc
comment starting `Modelled from the spec:`.
-/

/-- Numeric comparison operators shared by version and float criteria
(`GpuBlacklist::NumericOp`). -/
inductive NumericOp where
  | kEQ
  | kLT
  | kLE
  | kGT
  | kGE
  | kAny
  | kBetween
  | kUnknown
deriving DecidableEq, Repr

/-- Translation of `GpuBlacklist::StringToNumericOp`. -/
def stringToNumericOp (op : String) : NumericOp :=
  if op = "=" then NumericOp.kEQ
  else if op = "<" then NumericOp.kLT
  else if op = "<=" then NumericOp.kLE
  else if op = ">" then NumericOp.kGT
  else if op = ">=" then NumericOp.kGE
  else if op = "any" then NumericOp.kAny
  else if op = "between" then NumericOp.kBetween
  else NumericOp.kUnknown

/-- Modelled from the spec: `base::SplitString` (not in this repository)
splits a string at every occurrence of the separator, keeping empty
pieces. -/
def splitOnChar (sep : Char) : List Char → List (List Char)
  | [] => [[]]
  | c :: cs =>
    let rest := splitOnChar sep cs
    if c = sep then [] :: rest
    else
      match rest with
      | [] => [[c]]
      | p :: ps => (c :: p) :: ps

/-- Fold of a digit list into a natural number. -/
def digitsToNat (ds : List Char) : Nat :=
  ds.foldl (fun acc c => acc * 10 + (c.toNat - 48)) 0

/-- Parse of a non-empty all-digit piece into a natural number. -/
def parseNatDigits (cs : List Char) : Option Nat :=
  if cs = [] then none
  else if cs.all Char.isDigit then some (digitsToNat cs)
  else none

/-- Modelled from the spec: `base::Version::GetVersionFromString` (the base
version library is not part of this repository) parses a dotted numeric
string into an ordered list of 16-bit components; an unparsable string
yields an invalid (absent) version. -/
def parseVersionString (s : String) : Option (List Nat) :=
  (splitOnChar '.' s.toList).mapM (fun piece =>
    match parseNatDigits piece with
    | some n => if n ≤ 65535 then some n else none
    | none => none)

/-- Zero-extension of a component list to length `n` (absent trailing
components count as zero in comparisons). -/
def padTo (n : Nat) (xs : List Nat) : List Nat :=
  xs ++ List.replicate (n - xs.length) 0

/-- Lexicographic comparison of two component lists of equal length
(helper for `compareTo`). -/
def cmpList : List Nat → List Nat → Ordering
  | [], _ => Ordering.eq
  | _ :: _, [] => Ordering.eq
  | a :: as, b :: bs =>
    if a < b then Ordering.lt
    else if b < a then Ordering.gt
    else cmpList as bs

/-- Modelled from the spec: `base::Version::CompareTo` (not part of this
repository) performs component-wise lexicographic integer comparison of
the full version values, absent trailing components counting as zero. -/
def compareTo (a b : List Nat) : Ordering :=
  cmpList (padTo (max a.length b.length) a) (padTo (max a.length b.length) b)

/-- Translation of the `op_ == kEQ` comparison loop of
`GpuBlacklist::VersionInfo::Contains` (gpu_blacklist.cc lines 117-122);
the loop over the index `i` into `components_reference` becomes a
recursion whose first argument holds the reference components still to be
compared, with `i` retained for indexing `components`.
The source reads `components[i]` unconditionally after checking only
`i >= components.size() && components_reference[i] != 0`; when
`i >= components.size()` and the reference component is zero the read is
out of bounds, which the embedding reports as `none`. -/
def eqLoop : List Nat → List Nat → Nat → Option Bool
  | [], _, _ => some true
  | r :: rs, components, i =>
    if i ≥ components.length ∧ r ≠ 0 then some false
    else
      match components[i]? with
      | none => none
      | some c =>
        if c ≠ r then some false
        else eqLoop rs components (i + 1)

/-- Version styles (`GpuBlacklist::VersionInfo::VersionStyle`). -/
inductive VersionStyle where
  | kVersionStyleNumerical
  | kVersionStyleLexical
  | kVersionStyleUnknown
deriving DecidableEq, Repr

/-- Translation of `GpuBlacklist::VersionInfo::StringToVersionStyle`. -/
def stringToVersionStyle (versionStyle : String) : VersionStyle :=
  if versionStyle = "" ∨ versionStyle = "numerical" then
    VersionStyle.kVersionStyleNumerical
  else if versionStyle = "lexical" then VersionStyle.kVersionStyleLexical
  else VersionStyle.kVersionStyleUnknown

/-- Translation of the anonymous-namespace helper `NumericalToLexical`:
a string of the shape `major.digits` is rewritten so that every digit
after the first dot becomes its own component; otherwise the string is
returned unchanged. -/
def numericalToLexical (numerical : String) : String :=
  let cs := numerical.toList
  match cs.findIdx? (fun c => c = '.') with
  | some pos =>
    if pos + 1 < cs.length then
      let rest := cs.drop (pos + 1)
      if rest.all Char.isDigit then
        String.mk (cs.take pos ++ rest.foldr (fun c acc => '.' :: c :: acc) [])
      else numerical
    else numerical
  | none => numerical

/-- State of a `GpuBlacklist::VersionInfo` criterion object. -/
structure VersionInfo where
  op : NumericOp
  versionStyle : VersionStyle
  version : Option (List Nat)
  version2 : Option (List Nat)
deriving DecidableEq, Repr

/-- Translation of the `GpuBlacklist::VersionInfo` constructor. The class
declaration (gpu_blacklist.h) is not part of this repository; Modelled
from the spec: a criterion whose op is `any` is well formed, so when the
constructor returns before reading the style string the style member is
taken to default to numerical. -/
def mkVersionInfo (versionOp versionStyleStr versionString versionString2 : String) :
    VersionInfo :=
  let op := stringToNumericOp versionOp
  if op = NumericOp.kUnknown ∨ op = NumericOp.kAny then
    { op := op, versionStyle := VersionStyle.kVersionStyleNumerical,
      version := none, version2 := none }
  else
    let style := stringToVersionStyle versionStyleStr
    let processed :=
      if style = VersionStyle.kVersionStyleLexical then numericalToLexical versionString
      else versionString
    let processed2 :=
      if style = VersionStyle.kVersionStyleLexical then numericalToLexical versionString2
      else versionString2
    match parseVersionString processed with
    | none =>
      { op := NumericOp.kUnknown, versionStyle := style, version := none, version2 := none }
    | some v =>
      if op = NumericOp.kBetween then
        match parseVersionString processed2 with
        | none =>
          { op := NumericOp.kUnknown, versionStyle := style, version := some v,
            version2 := none }
        | some v2 =>
          { op := op, versionStyle := style, version := some v, version2 := some v2 }
      else { op := op, versionStyle := style, version := some v, version2 := none }

/-- Translation of `GpuBlacklist::VersionInfo::Contains`. -/
def VersionInfo.containsVersion (vi : VersionInfo) (version : List Nat) : Option Bool :=
  if vi.op = NumericOp.kUnknown then some false
  else if vi.op = NumericOp.kAny then some true
  else if vi.op = NumericOp.kEQ then eqLoop (vi.version.getD []) version 0
  else
    let relation := compareTo version (vi.version.getD [])
    if vi.op = NumericOp.kLT then some (decide (relation = Ordering.lt))
    else if vi.op = NumericOp.kLE then
      some (decide (relation = Ordering.lt ∨ relation = Ordering.eq))
    else if vi.op = NumericOp.kGT then some (decide (relation = Ordering.gt))
    else if vi.op = NumericOp.kGE then
      some (decide (relation = Ordering.gt ∨ relation = Ordering.eq))
    else
      if relation = Ordering.lt then some false
      else some (decide (compareTo version (vi.version2.getD []) ≠ Ordering.gt))

/-- Translation of `GpuBlacklist::VersionInfo::IsValid`. -/
def VersionInfo.isValidV (vi : VersionInfo) : Bool :=
  decide (vi.op ≠ NumericOp.kUnknown) &&
    decide (vi.versionStyle ≠ VersionStyle.kVersionStyleUnknown)

/-- Translation of `GpuBlacklist::VersionInfo::IsLexical`. -/
def VersionInfo.isLexical (vi : VersionInfo) : Bool :=
  vi.versionStyle = VersionStyle.kVersionStyleLexical

/-- String comparison operators (`GpuBlacklist::StringInfo::Op`). -/
inductive StringOp where
  | kStrEQ
  | kContains
  | kBeginWith
  | kEndWith
  | kStrUnknown
deriving DecidableEq, Repr

/-- Translation of `GpuBlacklist::StringInfo::StringToOp`. -/
def stringToStringOp (stringOp : String) : StringOp :=
  if stringOp = "=" then StringOp.kStrEQ
  else if stringOp = "contains" then StringOp.kContains
  else if stringOp = "beginwith" then StringOp.kBeginWith
  else if stringOp = "endwith" then StringOp.kEndWith
  else StringOp.kStrUnknown

/-- Modelled from the spec: `StringToLowerASCII` (base string helper, not in
this repository) lowercases the ASCII letters of a string. -/
def stringToLowerASCII (s : String) : String :=
  String.mk (s.toList.map Char.toLower)

/-- State of a `GpuBlacklist::StringInfo` criterion object; `value` is
stored lowercased by the constructor. -/
structure StringInfo where
  op : StringOp
  value : String
deriving DecidableEq, Repr

/-- Translation of the `GpuBlacklist::StringInfo` constructor. -/
def mkStringInfo (stringOp stringValue : String) : StringInfo :=
  { op := stringToStringOp stringOp, value := stringToLowerASCII stringValue }

/-- Translation of `GpuBlacklist::StringInfo::Contains`: the candidate is
lowercased, then the stored value is matched as substring / case
insensitive anchor / full equality according to the op. -/
def StringInfo.containsStr (si : StringInfo) (value : String) : Bool :=
  let myValue := stringToLowerASCII value
  match si.op with
  | StringOp.kContains => decide (si.value.toList <:+: myValue.toList)
  | StringOp.kBeginWith => si.value.toList.isPrefixOf myValue.toList
  | StringOp.kEndWith => si.value.toList.isSuffixOf myValue.toList
  | StringOp.kStrEQ => si.value == myValue
  | StringOp.kStrUnknown => false

/-- Translation of `GpuBlacklist::StringInfo::IsValid`. -/
def StringInfo.isValidStr (si : StringInfo) : Bool :=
  decide (si.op ≠ StringOp.kStrUnknown)

/-- Modelled from the spec: `base::StringToDouble` (not in this repository)
parses a decimal number, with an optional sign and an optional fractional
part; anything else fails. Values are represented as rationals. -/
def parseDouble (s : String) : Option ℚ :=
  let cs := s.toList
  let signed := match cs with
    | '-' :: r => (true, r)
    | r => (false, r)
  let intPart := signed.2.takeWhile Char.isDigit
  let rest := signed.2.dropWhile Char.isDigit
  if intPart = [] then none
  else
    let q : Option ℚ :=
      match rest with
      | [] => some ((digitsToNat intPart : Nat) : ℚ)
      | '.' :: frac =>
        if frac ≠ [] ∧ frac.all Char.isDigit then
          some (((digitsToNat intPart : Nat) : ℚ) +
            ((digitsToNat frac : Nat) : ℚ) / ((10 : ℚ) ^ frac.length))
        else none
      | _ => none
    q.map (fun v => if signed.1 then -v else v)

/-- State of a `GpuBlacklist::FloatInfo` criterion object. -/
structure FloatInfo where
  op : NumericOp
  value : ℚ
  value2 : ℚ
deriving DecidableEq, Repr

/-- Translation of the `GpuBlacklist::FloatInfo` constructor. -/
def mkFloatInfo (floatOp floatValue floatValue2 : String) : FloatInfo :=
  match parseDouble floatValue with
  | none => { op := NumericOp.kUnknown, value := 0, value2 := 0 }
  | some dvalue =>
    let op := stringToNumericOp floatOp
    if op = NumericOp.kBetween then
      match parseDouble floatValue2 with
      | none => { op := NumericOp.kUnknown, value := dvalue, value2 := 0 }
      | some d2 => { op := op, value := dvalue, value2 := d2 }
    else { op := op, value := dvalue, value2 := 0 }

/-- Translation of `GpuBlacklist::FloatInfo::Contains`; note that the
`kBetween` case accepts the bounds in either order. -/
def FloatInfo.containsFloat (fi : FloatInfo) (value : ℚ) : Bool :=
  if fi.op = NumericOp.kUnknown then false
  else if fi.op = NumericOp.kAny then true
  else if fi.op = NumericOp.kEQ then decide (value = fi.value)
  else if fi.op = NumericOp.kLT then decide (value < fi.value)
  else if fi.op = NumericOp.kLE then decide (value ≤ fi.value)
  else if fi.op = NumericOp.kGT then decide (value > fi.value)
  else if fi.op = NumericOp.kGE then decide (value ≥ fi.value)
  else
    decide ((fi.value ≤ value ∧ value ≤ fi.value2) ∨
      (fi.value2 ≤ value ∧ value ≤ fi.value))

/-- Translation of `GpuBlacklist::FloatInfo::IsValid`. -/
def FloatInfo.isValidF (fi : FloatInfo) : Bool :=
  decide (fi.op ≠ NumericOp.kUnknown)

/-- Operating system kinds (`GpuBlacklist::OsType`). -/
inductive OsType where
  | kOsWin
  | kOsMacosx
  | kOsLinux
  | kOsChromeOS
  | kOsAny
  | kOsUnknown
deriving DecidableEq, Repr

/-- Translation of `GpuBlacklist::OsInfo::StringToOsType`. -/
def stringToOsType (os : String) : OsType :=
  if os = "win" then OsType.kOsWin
  else if os = "macosx" then OsType.kOsMacosx
  else if os = "linux" then OsType.kOsLinux
  else if os = "chromeos" then OsType.kOsChromeOS
  else if os = "any" then OsType.kOsAny
  else OsType.kOsUnknown

/-- State of a `GpuBlacklist::OsInfo` criterion object; the version info is
only constructed when the os type string was recognized. -/
structure OsInfo where
  type : OsType
  versionInfo : Option VersionInfo
deriving DecidableEq, Repr

/-- Translation of the `GpuBlacklist::OsInfo` constructor. -/
def mkOsInfo (os versionOp versionString versionString2 : String) : OsInfo :=
  let t := stringToOsType os
  if t ≠ OsType.kOsUnknown then
    { type := t, versionInfo := some (mkVersionInfo versionOp "" versionString versionString2) }
  else { type := t, versionInfo := none }

/-- Translation of `GpuBlacklist::OsInfo::IsValid` (the short-circuiting
`&&` never dereferences the absent version info). -/
def OsInfo.isValidOs (oi : OsInfo) : Bool :=
  decide (oi.type ≠ OsType.kOsUnknown) &&
    (match oi.versionInfo with
     | some vi => vi.isValidV
     | none => false)

/-- Translation of `GpuBlacklist::OsInfo::Contains`. -/
def OsInfo.containsOs (oi : OsInfo) (type : OsType) (version : List Nat) : Option Bool :=
  if ¬ oi.isValidOs then some false
  else if oi.type ≠ type ∧ oi.type ≠ OsType.kOsAny then some false
  else
    match oi.versionInfo with
    | some vi => vi.containsVersion version
    | none => none

/-- Multi-GPU styles (`GpuBlacklist::GpuBlacklistEntry::MultiGpuStyle`). -/
inductive MultiGpuStyle where
  | kMultiGpuStyleOptimus
  | kMultiGpuStyleAMDSwitchable
  | kMultiGpuStyleNone
deriving DecidableEq, Repr

/-- Translation of `GpuBlacklist::GpuBlacklistEntry::StringToMultiGpuStyle`. -/
def stringToMultiGpuStyle (style : String) : MultiGpuStyle :=
  if style = "optimus" then MultiGpuStyle.kMultiGpuStyleOptimus
  else if style = "amd_switchable" then MultiGpuStyle.kMultiGpuStyleAMDSwitchable
  else MultiGpuStyle.kMultiGpuStyleNone

/-- Translation of the anonymous-namespace helper `GetDateFromString`:
`mm-dd-yyyy` is reparsed as the version `yyyy.mm.dd`; a string that does
not split into exactly three hyphen-separated pieces is invalid. -/
def getDateFromString (dateString : String) : Option (List Nat) :=
  let pieces := splitOnChar '-' dateString.toList
  if pieces.length ≠ 3 then none
  else
    parseVersionString
      (String.mk (pieces.getD 2 [] ++ '.' :: pieces.getD 0 [] ++ '.' :: pieces.getD 1 []))

/-- Modelled from the spec: the hardware snapshot (`content::GPUInfo`, not
part of this repository) carries the GPU identity, the multi-GPU flags,
the driver strings and the three performance scores read by the entry
evaluator. -/
structure GPUInfo where
  vendorId : Nat
  deviceId : Nat
  optimus : Bool
  amdSwitchable : Bool
  driverVendor : String
  driverVersion : String
  driverDate : String
  glVendor : String
  glRenderer : String
  perfGraphics : ℚ
  perfGaming : ℚ
  perfOverall : ℚ

/-- Modelled from the spec: `gpu_util::StringToGpuFeatureType` and the
`content::GpuFeatureType` bit flags (neither is part of this repository);
the named features map to distinct bits, `all` to their union, and an
unrecognized name to 0 (`GPU_FEATURE_TYPE_UNKNOWN`). -/
def stringToGpuFeatureType (s : String) : Nat :=
  if s = "accelerated_2d_canvas" then 1
  else if s = "accelerated_compositing" then 2
  else if s = "webgl" then 4
  else if s = "multisampling" then 8
  else if s = "flash_3d" then 16
  else if s = "flash_stage3d" then 32
  else if s = "all" then 63
  else 0

/-- The non-recursive fields of a `GpuBlacklist::GpuBlacklistEntry`. -/
structure EntryCore where
  id : Nat
  disabled : Bool
  description : String
  crBugs : List Int
  webkitBugs : List Int
  osInfo : Option OsInfo
  vendorId : Nat
  deviceIdList : List Nat
  multiGpuStyle : MultiGpuStyle
  driverVendorInfo : Option StringInfo
  driverVersionInfo : Option VersionInfo
  driverDateInfo : Option VersionInfo
  glVendorInfo : Option StringInfo
  glRendererInfo : Option StringInfo
  perfGraphicsInfo : Option FloatInfo
  perfGamingInfo : Option FloatInfo
  perfOverallInfo : Option FloatInfo
  featureType : Nat
  containsUnknownFields : Bool
  containsUnknownFeatures : Bool
deriving Repr

/-- A `GpuBlacklist::GpuBlacklistEntry`: its scalar fields plus the owned
recursive list of exception entries. -/
inductive Entry where
  | mk (core : EntryCore) (exceptions : List Entry) : Entry

/-- Scalar fields of an entry. -/
def Entry.core : Entry → EntryCore
  | Entry.mk c _ => c

/-- Exception entries owned by an entry. -/
def Entry.exceptions : Entry → List Entry
  | Entry.mk _ ex => ex

/-- Accessor `GpuBlacklistEntry::id`. -/
def Entry.id (e : Entry) : Nat := e.core.id

/-- Accessor `GpuBlacklistEntry::disabled`. -/
def Entry.disabled (e : Entry) : Bool := e.core.disabled

/-- Accessor `GpuBlacklistEntry::GetGpuFeatureType`. -/
def Entry.featureType (e : Entry) : Nat := e.core.featureType

/-- Translation of `GpuBlacklist::GpuBlacklistEntry::GetOsType`. -/
def Entry.getOsType (e : Entry) : OsType :=
  match e.core.osInfo with
  | none => OsType.kOsAny
  | some oi => oi.type

/-- Default field values set by the `GpuBlacklistEntry` constructor
(gpu_blacklist.cc lines 585-593). -/
def defaultEntryCore : EntryCore :=
  { id := 0, disabled := false, description := "", crBugs := [], webkitBugs := [],
    osInfo := none, vendorId := 0, deviceIdList := [],
    multiGpuStyle := MultiGpuStyle.kMultiGpuStyleNone,
    driverVendorInfo := none, driverVersionInfo := none, driverDateInfo := none,
    glVendorInfo := none, glRendererInfo := none, perfGraphicsInfo := none,
    perfGamingInfo := none, perfOverallInfo := none,
    featureType := 0, containsUnknownFields := false, containsUnknownFeatures := false }

/-- Sequencing of the early-return criterion checks of
`GpuBlacklistEntry::Contains`: a failed or undefined check stops the
chain, a passed check moves on. -/
def checkSeq (first rest : Option Bool) : Option Bool :=
  match first with
  | none => none
  | some false => some false
  | some true => rest

/-- Translation of the criterion section (steps before the exceptions
loop) of `GpuBlacklist::GpuBlacklistEntry::Contains` (gpu_blacklist.cc
lines 757-826): each criterion is an early-return check, absent criteria
are wildcards, and a present performance criterion additionally requires
the hardware score to be non-zero. -/
def EntryCore.criteriaMatch (c : EntryCore) (osType : OsType) (osVersion : List Nat)
    (g : GPUInfo) : Option Bool :=
  checkSeq
    (match c.osInfo with
     | some oi => oi.containsOs osType osVersion
     | none => some true)
  (checkSeq (some (!decide (c.vendorId ≠ 0 ∧ c.vendorId ≠ g.vendorId)))
  (checkSeq (some (!(decide (c.deviceIdList.length > 0) && !(c.deviceIdList.contains g.deviceId))))
  (checkSeq
    (some (match c.multiGpuStyle with
           | MultiGpuStyle.kMultiGpuStyleOptimus => g.optimus
           | MultiGpuStyle.kMultiGpuStyleAMDSwitchable => g.amdSwitchable
           | MultiGpuStyle.kMultiGpuStyleNone => true))
  (checkSeq
    (some (match c.driverVendorInfo with
           | some si => si.containsStr g.driverVendor
           | none => true))
  (checkSeq
    (match c.driverVersionInfo with
     | none => some true
     | some vi =>
       let processed :=
         if vi.isLexical then numericalToLexical g.driverVersion else g.driverVersion
       match parseVersionString processed with
       | none => some false
       | some dv => vi.containsVersion dv)
  (checkSeq
    (match c.driverDateInfo with
     | none => some true
     | some vi =>
       match getDateFromString g.driverDate with
       | none => some false
       | some dd => vi.containsVersion dd)
  (checkSeq
    (some (match c.glVendorInfo with
           | some si => si.containsStr g.glVendor
           | none => true))
  (checkSeq
    (some (match c.glRendererInfo with
           | some si => si.containsStr g.glRenderer
           | none => true))
  (checkSeq
    (some (match c.perfGraphicsInfo with
           | some fi => !(decide (g.perfGraphics = 0) || !(fi.containsFloat g.perfGraphics))
           | none => true))
  (checkSeq
    (some (match c.perfGamingInfo with
           | some fi => !(decide (g.perfGaming = 0) || !(fi.containsFloat g.perfGaming))
           | none => true))
  (checkSeq
    (some (match c.perfOverallInfo with
           | some fi => !(decide (g.perfOverall = 0) || !(fi.containsFloat g.perfOverall))
           | none => true))
  (some true))))))))))))

mutual

/-- Translation of `GpuBlacklist::GpuBlacklistEntry::Contains`: all
criteria must pass, then any matching exception vetoes the match. -/
def Entry.contains : Entry → OsType → List Nat → GPUInfo → Option Bool
  | Entry.mk core exceptions, osType, osVersion, g =>
    match core.criteriaMatch osType osVersion g with
    | some true => Entry.exceptionsVeto exceptions osType osVersion g
    | r => r

/-- Translation of the exceptions loop at the end of
`GpuBlacklistEntry::Contains` (gpu_blacklist.cc lines 827-831): a
matching exception makes the parent return false, otherwise the parent's
match stands. -/
def Entry.exceptionsVeto : List Entry → OsType → List Nat → GPUInfo → Option Bool
  | [], _, _, _ => some true
  | ex :: rest, osType, osVersion, g =>
    match Entry.contains ex osType osVersion g with
    | none => none
    | some true => some false
    | some false => Entry.exceptionsVeto rest osType osVersion g

end

/-- Modelled from the spec: the generic parsed value tree the loader
consumes (`base::Value` and friends are outside this repository; the spec
describes a tree of typed object/list/string/number/bool values). -/
inductive GValue where
  | vBool : Bool → GValue
  | vInt : Int → GValue
  | vStr : String → GValue
  | vList : List GValue → GValue
  | vDict : List (String × GValue) → GValue

/-- A dictionary node: an association list of keys to values. -/
abbrev GDict := List (String × GValue)

/-- Lookup of a key in a dictionary node. -/
def getValue (d : GDict) (key : String) : Option GValue :=
  (d.find? (fun p => p.1 == key)).map (fun p => p.2)

/-- Typed lookup (`DictionaryValue::GetString`). -/
def getString (d : GDict) (key : String) : Option String :=
  match getValue d key with
  | some (GValue.vStr s) => some s
  | _ => none

/-- Typed lookup (`DictionaryValue::GetInteger`). -/
def getInteger (d : GDict) (key : String) : Option Int :=
  match getValue d key with
  | some (GValue.vInt i) => some i
  | _ => none

/-- Typed lookup (`DictionaryValue::GetBoolean`). -/
def getBoolean (d : GDict) (key : String) : Option Bool :=
  match getValue d key with
  | some (GValue.vBool b) => some b
  | _ => none

/-- Typed lookup (`DictionaryValue::GetList`). -/
def getList (d : GDict) (key : String) : Option (List GValue) :=
  match getValue d key with
  | some (GValue.vList l) => some l
  | _ => none

/-- Typed lookup (`DictionaryValue::GetDictionary`). -/
def getDictionary (d : GDict) (key : String) : Option GDict :=
  match getValue d key with
  | some (GValue.vDict dd) => some dd
  | _ => none

/-- Value of a hexadecimal digit. -/
def hexDigitToNat (c : Char) : Option Nat :=
  if c.isDigit then some (c.toNat - 48)
  else if 'a' ≤ c ∧ c ≤ 'f' then some (c.toNat - 87)
  else if 'A' ≤ c ∧ c ≤ 'F' then some (c.toNat - 55)
  else none

/-- Modelled from the spec: `base::HexStringToInt` (not in this repository)
parses a hex string such as `0x10de` (the `0x` is optional) into an
integer that the entry setters reinterpret as a `uint32`. -/
def parseHexNat (s : String) : Option Nat :=
  let cs := s.toList
  let digits := match cs with
    | '0' :: 'x' :: rest => rest
    | '0' :: 'X' :: rest => rest
    | rest => rest
  if digits = [] then none
  else
    (digits.foldlM (fun acc c => (hexDigitToNat c).map (fun d => acc * 16 + d)) 0).map
      (fun n => n % 4294967296)

/-- Translation of `GpuBlacklistEntry::SetBlacklistedFeatures`: fails on an
empty list, ORs the recognized feature bits, and flags an unrecognized
feature name; returns the feature mask and the unknown-features flag. -/
def setBlacklistedFeatures (features : List String) : Option (Nat × Bool) :=
  if features.length = 0 then none
  else
    some (features.foldl
      (fun acc f =>
        let t := stringToGpuFeatureType f
        if t = 0 then (acc.1, true) else (acc.1 ||| t, acc.2))
      (0, false))

/-- The `id`/`SetId` block of `GetGpuBlacklistEntryFromValue` (top level
only): the value must be an integer whose `uint32` reinterpretation is
non-zero. -/
def parseIdField (value : GDict) (ec : EntryCore × Nat) : Option (EntryCore × Nat) :=
  match getInteger value "id" with
  | some i =>
    let id := (i % 4294967296).toNat
    if id = 0 then none else some ({ ec.1 with id := id }, ec.2 + 1)
  | none => none

/-- The `disabled` block (top level only). -/
def parseDisabledField (value : GDict) (ec : EntryCore × Nat) : Option (EntryCore × Nat) :=
  match getBoolean value "disabled" with
  | some d => some ({ ec.1 with disabled := d }, ec.2 + 1)
  | none => some ec

/-- The `description` block (a missing description gets a default text). -/
def parseDescriptionField (value : GDict) (ec : EntryCore × Nat) : Option (EntryCore × Nat) :=
  match getString value "description" with
  | some d => some ({ ec.1 with description := d }, ec.2 + 1)
  | none =>
    some ({ ec.1 with description := "The GPU is unavailable for an unexplained reason." },
      ec.2)

/-- The element loop shared by the `cr_bugs` and `webkit_bugs` blocks:
every element must be an integer. -/
def parseIntList (l : List GValue) : Option (List Int) :=
  l.mapM (fun v =>
    match v with
    | GValue.vInt i => some i
    | _ => none)

/-- The `cr_bugs` block. -/
def parseCrBugsField (value : GDict) (ec : EntryCore × Nat) : Option (EntryCore × Nat) :=
  match getList value "cr_bugs" with
  | some l =>
    match parseIntList l with
    | none => none
    | some bugs => some ({ ec.1 with crBugs := bugs }, ec.2 + 1)
  | none => some ec

/-- The `webkit_bugs` block. -/
def parseWebkitBugsField (value : GDict) (ec : EntryCore × Nat) : Option (EntryCore × Nat) :=
  match getList value "webkit_bugs" with
  | some l =>
    match parseIntList l with
    | none => none
    | some bugs => some ({ ec.1 with webkitBugs := bugs }, ec.2 + 1)
  | none => some ec

/-- The `os` block: the type string and the optional nested version dict
are read (the op defaulting to `any`), then `SetOsInfo` must produce a
valid criterion or the entry is malformed. -/
def parseOsField (value : GDict) (ec : EntryCore × Nat) : Option (EntryCore × Nat) :=
  match getDictionary value "os" with
  | none => some ec
  | some osValue =>
    let osType := (getString osValue "type").getD ""
    let osVersionValue := getDictionary osValue "version"
    let osVersionOp :=
      match osVersionValue with
      | some ov => (getString ov "op").getD "any"
      | none => "any"
    let osVersionString :=
      match osVersionValue with
      | some ov => (getString ov "number").getD ""
      | none => ""
    let osVersionString2 :=
      match osVersionValue with
      | some ov => (getString ov "number2").getD ""
      | none => ""
    let oi := mkOsInfo osType osVersionOp osVersionString osVersionString2
    if oi.isValidOs then some ({ ec.1 with osInfo := some oi }, ec.2 + 1) else none

/-- The `vendor_id` block (`SetVendorId`: the hex string must parse). -/
def parseVendorIdField (value : GDict) (ec : EntryCore × Nat) : Option (EntryCore × Nat) :=
  match getString value "vendor_id" with
  | some vs =>
    match parseHexNat vs with
    | none => none
    | some vid => some ({ ec.1 with vendorId := vid }, ec.2 + 1)
  | none => some ec

/-- The `device_id` block: every element must be a hex string
(`AddDeviceId`). -/
def parseDeviceIdField (value : GDict) (ec : EntryCore × Nat) : Option (EntryCore × Nat) :=
  match getList value "device_id" with
  | some l =>
    match l.mapM (fun v =>
        match v with
        | GValue.vStr s => parseHexNat s
        | _ => none) with
    | none => none
    | some ids => some ({ ec.1 with deviceIdList := ids }, ec.2 + 1)
  | none => some ec

/-- The `multi_gpu_style` block (`SetMultiGpuStyle` rejects an
unrecognized style string). -/
def parseMultiGpuStyleField (value : GDict) (ec : EntryCore × Nat) :
    Option (EntryCore × Nat) :=
  match getString value "multi_gpu_style" with
  | some s =>
    let style := stringToMultiGpuStyle s
    if style = MultiGpuStyle.kMultiGpuStyleNone then none
    else some ({ ec.1 with multiGpuStyle := style }, ec.2 + 1)
  | none => some ec

/-- The `driver_vendor` block (`SetDriverVendorInfo`). -/
def parseDriverVendorField (value : GDict) (ec : EntryCore × Nat) :
    Option (EntryCore × Nat) :=
  match getDictionary value "driver_vendor" with
  | some dv =>
    let si := mkStringInfo ((getString dv "op").getD "") ((getString dv "value").getD "")
    if si.isValidStr then some ({ ec.1 with driverVendorInfo := some si }, ec.2 + 1)
    else none
  | none => some ec

/-- The `driver_version` block (`SetDriverVersionInfo`; the op defaults to
`any`). -/
def parseDriverVersionField (value : GDict) (ec : EntryCore × Nat) :
    Option (EntryCore × Nat) :=
  match getDictionary value "driver_version" with
  | some dv =>
    let vi := mkVersionInfo ((getString dv "op").getD "any") ((getString dv "style").getD "")
      ((getString dv "number").getD "") ((getString dv "number2").getD "")
    if vi.isValidV then some ({ ec.1 with driverVersionInfo := some vi }, ec.2 + 1)
    else none
  | none => some ec

/-- The `driver_date` block (`SetDriverDateInfo`; always numerical style). -/
def parseDriverDateField (value : GDict) (ec : EntryCore × Nat) :
    Option (EntryCore × Nat) :=
  match getDictionary value "driver_date" with
  | some dv =>
    let vi := mkVersionInfo ((getString dv "op").getD "any") ""
      ((getString dv "number").getD "") ((getString dv "number2").getD "")
    if vi.isValidV then some ({ ec.1 with driverDateInfo := some vi }, ec.2 + 1)
    else none
  | none => some ec

/-- The `gl_vendor` block (`SetGLVendorInfo`). -/
def parseGlVendorField (value : GDict) (ec : EntryCore × Nat) : Option (EntryCore × Nat) :=
  match getDictionary value "gl_vendor" with
  | some dv =>
    let si := mkStringInfo ((getString dv "op").getD "") ((getString dv "value").getD "")
    if si.isValidStr then some ({ ec.1 with glVendorInfo := some si }, ec.2 + 1)
    else none
  | none => some ec

/-- The `gl_renderer` block (`SetGLRendererInfo`). -/
def parseGlRendererField (value : GDict) (ec : EntryCore × Nat) : Option (EntryCore × Nat) :=
  match getDictionary value "gl_renderer" with
  | some dv =>
    let si := mkStringInfo ((getString dv "op").getD "") ((getString dv "value").getD "")
    if si.isValidStr then some ({ ec.1 with glRendererInfo := some si }, ec.2 + 1)
    else none
  | none => some ec

/-- The `perf_graphics` block (`SetPerfGraphicsInfo`). -/
def parsePerfGraphicsField (value : GDict) (ec : EntryCore × Nat) :
    Option (EntryCore × Nat) :=
  match getDictionary value "perf_graphics" with
  | some pv =>
    let fi := mkFloatInfo ((getString pv "op").getD "") ((getString pv "value").getD "")
      ((getString pv "value2").getD "")
    if fi.isValidF then some ({ ec.1 with perfGraphicsInfo := some fi }, ec.2 + 1)
    else none
  | none => some ec

/-- The `perf_gaming` block (`SetPerfGamingInfo`). -/
def parsePerfGamingField (value : GDict) (ec : EntryCore × Nat) :
    Option (EntryCore × Nat) :=
  match getDictionary value "perf_gaming" with
  | some pv =>
    let fi := mkFloatInfo ((getString pv "op").getD "") ((getString pv "value").getD "")
      ((getString pv "value2").getD "")
    if fi.isValidF then some ({ ec.1 with perfGamingInfo := some fi }, ec.2 + 1)
    else none
  | none => some ec

/-- The `perf_overall` block (`SetPerfOverallInfo`). -/
def parsePerfOverallField (value : GDict) (ec : EntryCore × Nat) :
    Option (EntryCore × Nat) :=
  match getDictionary value "perf_overall" with
  | some pv =>
    let fi := mkFloatInfo ((getString pv "op").getD "") ((getString pv "value").getD "")
      ((getString pv "value2").getD "")
    if fi.isValidF then some ({ ec.1 with perfOverallInfo := some fi }, ec.2 + 1)
    else none
  | none => some ec

/-- The field blocks of `GetGpuBlacklistEntryFromValue` shared by
top-level entries and exceptions (gpu_blacklist.cc lines 316-522), in
source order; a malformed block aborts the entry. -/
def parseEntryFields (value : GDict) (ec : EntryCore × Nat) : Option (EntryCore × Nat) :=
  ((((((((((((((parseDescriptionField value ec).bind
    (parseCrBugsField value)).bind
    (parseWebkitBugsField value)).bind
    (parseOsField value)).bind
    (parseVendorIdField value)).bind
    (parseDeviceIdField value)).bind
    (parseMultiGpuStyleField value)).bind
    (parseDriverVendorField value)).bind
    (parseDriverVersionField value)).bind
    (parseDriverDateField value)).bind
    (parseGlVendorField value)).bind
    (parseGlRendererField value)).bind
    (parsePerfGraphicsField value)).bind
    (parsePerfGamingField value)).bind
    (parsePerfOverallField value)

/-- Translation of `GetGpuBlacklistEntryFromValue` with
`top_level == false` (exception entries): only the shared field blocks
run, then the unknown-fields check compares the dictionary size with the
number of recognized fields. -/
def entryFromValueNonTop (value : GDict) : Option Entry :=
  match parseEntryFields value (defaultEntryCore, 0) with
  | none => none
  | some (core, cnt) =>
    if value.length ≠ cnt then
      some (Entry.mk { core with containsUnknownFields := true } [])
    else some (Entry.mk core [])

/-- The `exceptions` element loop (gpu_blacklist.cc lines 550-568): every
element must be a dictionary and must parse as an exception entry; an
exception with unknown fields is dropped and flags the parent, the rest
are appended; returns the kept exceptions and the parent flag. -/
def parseExceptionsList (l : List GValue) : Option (List Entry × Bool) :=
  l.foldlM
    (fun acc exv =>
      match exv with
      | GValue.vDict exd =>
        match entryFromValueNonTop exd with
        | none => none
        | some ex =>
          if ex.core.containsUnknownFields then some (acc.1, true)
          else some (acc.1 ++ [ex], acc.2)
      | _ => none)
    ([], false)

/-- The `blacklist` block (top level only): the list is mandatory, every
element must be a string, and `SetBlacklistedFeatures` must accept it. -/
def parseBlacklistField (value : GDict) (ec : EntryCore × Nat) : Option (EntryCore × Nat) :=
  match getList value "blacklist" with
  | none => none
  | some bl =>
    match bl.mapM (fun v =>
        match v with
        | GValue.vStr s => some s
        | _ => none) with
    | none => none
    | some features =>
      match setBlacklistedFeatures features with
      | none => none
      | some (ft, unknownFeat) =>
        some ({ ec.1 with featureType := ft, containsUnknownFeatures := unknownFeat },
          ec.2 + 1)

/-- The `exceptions` block (top level only). -/
def parseExceptionsField (value : GDict) (ec : EntryCore × Nat) :
    Option (EntryCore × Nat × List Entry) :=
  match getList value "exceptions" with
  | none => some (ec.1, ec.2, [])
  | some exList =>
    match parseExceptionsList exList with
    | none => none
    | some (exs, flagged) =>
      some ((if flagged then { ec.1 with containsUnknownFields := true } else ec.1),
        ec.2 + 1, exs)

/-- The `browser_version` presence count (top level only; the criterion
itself is processed by the loader, not stored in the entry). -/
def countBrowserVersionField (value : GDict) (cnt : Nat) : Nat :=
  match getDictionary value "browser_version" with
  | some _ => cnt + 1
  | none => cnt

/-- Translation of `GetGpuBlacklistEntryFromValue` with
`top_level == true`: mandatory id, optional disabled, the shared field
blocks, the mandatory blacklist, the exceptions, the browser_version
count, and finally the unknown-fields size check. -/
def entryFromValueTop (value : GDict) : Option Entry :=
  match parseIdField value (defaultEntryCore, 0) with
  | none => none
  | some ec1 =>
    match parseDisabledField value ec1 with
    | none => none
    | some ec2 =>
      match parseEntryFields value ec2 with
      | none => none
      | some ec3 =>
        match parseBlacklistField value ec3 with
        | none => none
        | some ec4 =>
          match parseExceptionsField value ec4 with
          | none => none
          | some (core0, cnt0, exs) =>
            let cnt := countBrowserVersionField value cnt0
            let core :=
              if value.length ≠ cnt then { core0 with containsUnknownFields := true }
              else core0
            some (Entry.mk core exs)

/-- Translation of the static
`GpuBlacklistEntry::GetGpuBlacklistEntryFromValue`, dispatching on the
`top_level` flag. -/
def getGpuBlacklistEntryFromValue (value : GDict) (topLevel : Bool) : Option Entry :=
  if topLevel then entryFromValueTop value else entryFromValueNonTop value

/-- Browser-version gating outcomes
(`GpuBlacklist::BrowserVersionSupport`). -/
inductive BrowserVersionSupport where
  | kSupported
  | kUnsupported
  | kMalformed
deriving DecidableEq, Repr

/-- Translation of
`GpuBlacklist::IsEntrySupportedByCurrentBrowserVersion`: an absent
`browser_version` dict means supported, a malformed criterion is fatal,
otherwise the stored browser version is matched (`none` reports the
undefined-behavior path of the version comparison). -/
def isEntrySupportedByBrowserVersion (browserVersion : List Nat) (value : GDict) :
    Option BrowserVersionSupport :=
  match getDictionary value "browser_version" with
  | some bv =>
    let vi := mkVersionInfo ((getString bv "op").getD "any") ""
      ((getString bv "number").getD "") ((getString bv "number2").getD "")
    if ¬ vi.isValidV then some BrowserVersionSupport.kMalformed
    else
      match vi.containsVersion browserVersion with
      | none => none
      | some true => some BrowserVersionSupport.kSupported
      | some false => some BrowserVersionSupport.kUnsupported
  | none => some BrowserVersionSupport.kSupported

/-- Outcome of the entry loop of `LoadGpuBlacklist`: undefined behavior,
load failure, or the collected entries with the running max id and the
aggregate unknown-fields flag. -/
inductive LoopResult where
  | undef : LoopResult
  | failed : LoopResult
  | ok : List Entry → Nat → Bool → LoopResult

/-- Translation of the entry loop of `GpuBlacklist::LoadGpuBlacklist`
(gpu_blacklist.cc lines 909-938): every list element must be a
dictionary; an entry for another browser version is skipped; a malformed
entry fails the whole load; the max id is tracked for every parsed entry;
an entry with unknown fields is skipped (setting the aggregate flag), an
entry with unknown features is kept (also setting the flag). -/
def loadLoop (browserVersion : List Nat) :
    List GValue → List Entry → Nat → Bool → LoopResult
  | [], entries, maxId, unknown => LoopResult.ok entries maxId unknown
  | item :: rest, entries, maxId, unknown =>
    match item with
    | GValue.vDict listItem =>
      match isEntrySupportedByBrowserVersion browserVersion listItem with
      | none => LoopResult.undef
      | some BrowserVersionSupport.kMalformed => LoopResult.failed
      | some BrowserVersionSupport.kUnsupported =>
        loadLoop browserVersion rest entries maxId unknown
      | some BrowserVersionSupport.kSupported =>
        match getGpuBlacklistEntryFromValue listItem true with
        | none => LoopResult.failed
        | some entry =>
          let maxId2 := if entry.id > maxId then entry.id else maxId
          if entry.core.containsUnknownFields then
            loadLoop browserVersion rest entries maxId2 true
          else
            loadLoop browserVersion rest (entries ++ [entry]) maxId2
              (unknown || entry.core.containsUnknownFeatures)
    | _ => LoopResult.failed

/-- Os filter modes (`GpuBlacklist::OsFilter`). -/
inductive OsFilter where
  | kCurrentOsOnly
  | kAllOs
deriving DecidableEq, Repr

/-- The mutable state of a `GpuBlacklist` object observable through its
public interface. -/
structure BlacklistState where
  browserVersion : List Nat
  version : Option (List Nat)
  blacklist : List Entry
  activeEntries : List Entry
  maxEntryId : Nat
  containsUnknownFields : Bool

/-- Translation of `GpuBlacklist::LoadGpuBlacklist(const DictionaryValue&,
OsFilter)` (gpu_blacklist.cc lines 893-951). The current platform type
(`GetOsType`, compiled in via preprocessor in the source) is passed
explicitly. Note the stored schema version member is overwritten before
any of the failure returns. `none` reports an undefined-behavior path in
the browser-version gating. -/
def loadGpuBlacklist (parsedJson : GDict) (osFilter : OsFilter) (myOs : OsType)
    (st : BlacklistState) : Option (Bool × BlacklistState) :=
  let versionString := (getString parsedJson "version").getD ""
  let version := parseVersionString versionString
  let st1 := { st with version := version }
  match version with
  | none => some (false, st1)
  | some _ =>
    match getList parsedJson "entries" with
    | none => some (false, st1)
    | some list =>
      match loadLoop st1.browserVersion list [] 0 false with
      | LoopResult.undef => none
      | LoopResult.failed => some (false, st1)
      | LoopResult.ok entries maxId unknown =>
        let st2 := { st1 with blacklist := [], activeEntries := [],
                              maxEntryId := 0, containsUnknownFields := false }
        let kept := entries.filter (fun e =>
          decide (osFilter = OsFilter.kAllOs ∨ e.getOsType = OsType.kOsAny ∨
            e.getOsType = myOs))
        some (true, { st2 with blacklist := kept, maxEntryId := maxId,
                               containsUnknownFields := unknown })

/-- Translation of the evaluation loop of
`GpuBlacklist::DetermineGpuFeatureType` (gpu_blacklist.cc lines 973-979):
every matching entry is appended to the active entries, and only a
matching entry that is not disabled contributes its feature mask. -/
def blacklistLoop :
    List Entry → OsType → List Nat → GPUInfo → Nat → List Entry →
      Option (Nat × List Entry)
  | [], _, _, _, type, active => some (type, active)
  | e :: rest, osType, osVersion, g, type, active =>
    match Entry.contains e osType osVersion g with
    | none => none
    | some true =>
      blacklistLoop rest osType osVersion g
        (if e.disabled then type else type ||| e.featureType) (active ++ [e])
    | some false => blacklistLoop rest osType osVersion g type active

/-- Translation of `GpuBlacklist::DetermineGpuFeatureType` on the path
where the os type and version are supplied by the caller: the active
entries are recomputed from scratch and the feature mask returned. -/
def determineGpuFeatureType (st : BlacklistState) (os : OsType) (osVersion : List Nat)
    (g : GPUInfo) : Option (Nat × BlacklistState) :=
  match blacklistLoop st.blacklist os osVersion g 0 [] with
  | none => none
  | some (type, active) => some (type, { st with activeEntries := active })

/-- Translation of `GpuBlacklist::GetVersion`: the stored schema version
is formatted as `major.minor` only when it has exactly two components;
otherwise the empty string is returned. -/
def getVersion (st : BlacklistState) : String :=
  match st.version with
  | none => ""
  | some comps =>
    if comps.length ≠ 2 then ""
    else Nat.repr (comps.getD 0 0) ++ "." ++ Nat.repr (comps.getD 1 0)

/-- An initial blacklist state with nothing loaded (browser version 10),
used by the concrete instances. -/
def emptyState : BlacklistState :=
  { browserVersion := [10], version := none, blacklist := [], activeEntries := [],
    maxEntryId := 0, containsUnknownFields := false }

/-- A well-formed one-entry rule set. -/
def jsonOK : GDict :=
  [("version", GValue.vStr "1.0"),
   ("entries", GValue.vList [GValue.vDict
     [("id", GValue.vInt 7), ("blacklist", GValue.vList [GValue.vStr "webgl"])]])]

/-- The state after loading `jsonOK`. -/
def stOK : BlacklistState :=
  match loadGpuBlacklist jsonOK OsFilter.kAllOs OsType.kOsLinux emptyState with
  | some r => r.2
  | none => emptyState

/-- A rule set whose single entry carries an unrecognized key. -/
def jsonC1 : GDict :=
  [("version", GValue.vStr "1.0"),
   ("entries", GValue.vList [GValue.vDict
     [("id", GValue.vInt 1), ("blacklist", GValue.vList [GValue.vStr "webgl"]),
      ("unknown_key", GValue.vInt 3)]])]

/-- A rule set with a parsable schema version but no entries list. -/
def jsonNoEntries : GDict := [("version", GValue.vStr "2.0")]

/-- A state holding a previously loaded schema version 1.0 and a non-zero
max entry id. -/
def stC2 : BlacklistState :=
  { browserVersion := [10], version := some [1, 0], blacklist := [], activeEntries := [],
    maxEntryId := 5, containsUnknownFields := false }

/-- The state after the failing reload of `jsonNoEntries` over `stC2`. -/
def stC2After : BlacklistState :=
  match loadGpuBlacklist jsonNoEntries OsFilter.kAllOs OsType.kOsLinux stC2 with
  | some r => r.2
  | none => stC2

/-- A top-level entry dictionary whose os criterion has the given type
string. -/
def entryDictOs (t : String) : GDict :=
  [("id", GValue.vInt 1), ("os", GValue.vDict [("type", GValue.vStr t)]),
   ("blacklist", GValue.vList [GValue.vStr "webgl"])]

/-- A rule set whose single entry is `entryDictOs t`. -/
def jsonOs (t : String) : GDict :=
  [("version", GValue.vStr "1.0"),
   ("entries", GValue.vList [GValue.vDict (entryDictOs t)])]

/-- A rule set with a three-component schema version and no entries. -/
def jsonV123 : GDict :=
  [("version", GValue.vStr "1.2.3"), ("entries", GValue.vList [])]

/-- A hardware snapshot with everything unset or zero, used by the
concrete witness instances. -/
def g0 : GPUInfo :=
  { vendorId := 0, deviceId := 0, optimus := false, amdSwitchable := false,
    driverVendor := "", driverVersion := "", driverDate := "", glVendor := "",
    glRenderer := "", perfGraphics := 0, perfGaming := 0, perfOverall := 0 }

/-- A matching entry marked disabled, for the concrete C9 instance. -/
def entryDisabled : Entry :=
  Entry.mk { defaultEntryCore with id := 1, disabled := true, featureType := 4 } []

/-- A matching enabled entry, for the concrete C9 instance. -/
def entryEnabled : Entry :=
  Entry.mk { defaultEntryCore with id := 2, featureType := 2 } []

/-! Lemmas about the component comparator. -/

theorem cmpList_self (x : List Nat) : cmpList x x = Ordering.eq := by
  induction x with
  | nil => rfl
  | cons a as ih => simp [cmpList, Nat.lt_irrefl, ih]

theorem cmpList_append_replicate (x : List Nat) :
    ∀ (y : List Nat), x.length = y.length → ∀ k : Nat,
      cmpList (x ++ List.replicate k 0) (y ++ List.replicate k 0) = cmpList x y := by
  induction x with
  | nil =>
    intro y h k
    have hy : y = [] := List.length_eq_zero.mp h.symm
    subst hy
    simp only [List.nil_append]
    rw [cmpList_self]
    rfl
  | cons a as ih =>
    intro y h k
    match y with
    | [] => simp at h
    | b :: bs =>
      simp only [List.cons_append, cmpList]
      split_ifs with h1 h2
      · rfl
      · rfl
      · exact ih bs (by simpa using h) k

theorem padTo_length (xs : List Nat) (n : Nat) (h : xs.length ≤ n) :
    (padTo n xs).length = n := by
  simp [padTo]
  omega

theorem padTo_split (xs : List Nat) (m n : Nat) (h1 : xs.length ≤ m) (h2 : m ≤ n) :
    padTo n xs = padTo m xs ++ List.replicate (n - m) 0 := by
  simp only [padTo, List.append_assoc, ← List.replicate_add]
  congr 2
  omega

theorem compareTo_pad (x y : List Nat) (n : Nat) (hx : x.length ≤ n) (hy : y.length ≤ n) :
    cmpList (padTo n x) (padTo n y) = compareTo x y := by
  have hm : max x.length y.length ≤ n := by omega
  rw [compareTo,
    padTo_split x (max x.length y.length) n (Nat.le_max_left _ _) hm,
    padTo_split y (max x.length y.length) n (Nat.le_max_right _ _) hm,
    cmpList_append_replicate (padTo (max x.length y.length) x)
      (padTo (max x.length y.length) y)
      (by rw [padTo_length x _ (Nat.le_max_left _ _),
              padTo_length y _ (Nat.le_max_right _ _)])
      (n - max x.length y.length)]

theorem cmpList_trans_gt :
    ∀ (v b1 b2 : List Nat), v.length = b1.length → b1.length = b2.length →
      cmpList v b1 ≠ Ordering.lt → cmpList b1 b2 = Ordering.gt →
      cmpList v b2 = Ordering.gt := by
  intro v
  induction v with
  | nil =>
    intro b1 b2 h1 h2 hv hb
    have hb1 : b1 = [] := List.length_eq_zero.mp h1.symm
    subst hb1
    have hb2 : b2 = [] := List.length_eq_zero.mp h2.symm
    subst hb2
    simp [cmpList] at hb
  | cons a as ih =>
    intro b1 b2 h1 h2 hv hb
    match b1, b2 with
    | [], _ => simp at h1
    | _ :: _, [] => simp at h2
    | b :: bs, c :: cs =>
      simp only [cmpList] at hv hb ⊢
      rcases Nat.lt_trichotomy a b with hab | hab | hab
      · simp [hab] at hv
      · subst hab
        rcases Nat.lt_trichotomy a c with hac | hac | hac
        · simp [hac] at hb
        · subst hac
          simp only [Nat.lt_irrefl, if_false] at hv hb ⊢
          exact ih bs cs (by simpa using h1) (by simpa using h2) hv hb
        · simp [Nat.lt_asymm hac, hac]
      · rcases Nat.lt_trichotomy a c with hac | hac | hac
        · have hbc : b < c := lt_trans hab hac
          simp [hbc] at hb
        · subst hac
          simp [hab] at hb
        · simp [Nat.lt_asymm hac, hac]

theorem eqLoop_spec :
    ∀ (rs cand : List Nat) (i : Nat), i + rs.length ≤ cand.length →
      eqLoop rs cand i =
        some (decide (∀ j, j < rs.length → rs.getD j 0 = cand.getD (i + j) 0)) := by
  intro rs
  induction rs with
  | nil =>
    intro cand i h
    have hP : ∀ j, j < ([] : List Nat).length → ([] : List Nat).getD j 0 = cand.getD (i + j) 0 := by
      intro j hj
      simp at hj
    rw [eqLoop, decide_eq_true hP]
  | cons r rs ih =>
    intro cand i h
    have hic : i < cand.length := by
      simp only [List.length_cons] at h
      omega
    rw [eqLoop, if_neg (fun hc => absurd hc.1 (by omega)), List.getElem?_eq_getElem hic]
    show (if cand[i] ≠ r then some false else eqLoop rs cand (i + 1)) = _
    by_cases hcr : cand[i] = r
    · rw [if_neg (not_not_intro hcr)]
      rw [ih cand (i + 1) (by simp only [List.length_cons] at h; omega)]
      congr 1
      rw [decide_eq_decide]
      constructor
      · intro hP j hj
        match j with
        | 0 =>
          rw [List.getD_cons_zero, Nat.add_zero, List.getD_eq_getElem cand 0 hic]
          exact hcr.symm
        | k + 1 =>
          rw [List.getD_cons_succ]
          have hidx : i + (k + 1) = i + 1 + k := by omega
          rw [hidx]
          exact hP k (by simp only [List.length_cons] at hj; omega)
      · intro hP j hj
        have := hP (j + 1) (by simp only [List.length_cons]; omega)
        rw [List.getD_cons_succ] at this
        have hidx : i + (j + 1) = i + 1 + j := by omega
        rw [hidx] at this
        exact this
    · rw [if_pos hcr]
      have hP : ¬ (∀ j, j < (r :: rs).length → (r :: rs).getD j 0 = cand.getD (i + j) 0) := by
        intro hPc
        apply hcr
        have h0 := hPc 0 (by simp)
        rw [List.getD_cons_zero, Nat.add_zero, List.getD_eq_getElem cand 0 hic] at h0
        exact h0.symm
      rw [decide_eq_false hP]

theorem take_eq_iff_forall (ref cand : List Nat) (h : ref.length ≤ cand.length) :
    cand.take ref.length = ref ↔
      ∀ j, j < ref.length → ref.getD j 0 = cand.getD j 0 := by
  constructor
  · intro ht j hj
    have hjc : j < cand.length := lt_of_lt_of_le hj h
    have hjt : j < (cand.take ref.length).length := by
      rw [List.length_take]
      omega
    rw [List.getD_eq_getElem ref 0 hj, List.getD_eq_getElem cand 0 hjc]
    have hg := @List.getElem_take _ cand ref.length j hjt
    have hg2 := List.getElem_of_eq ht hjt
    omega
  · intro hf
    apply List.ext_getElem
    · rw [List.length_take]
      omega
    · intro j h1 h2
      have hjc : j < cand.length := lt_of_lt_of_le h2 h
      have hthis := hf j h2
      rw [List.getD_eq_getElem ref 0 h2, List.getD_eq_getElem cand 0 hjc] at hthis
      have hg := @List.getElem_take _ cand ref.length j h1
      omega

/-- C7: with an `Eq` version criterion whose component list is no longer
than the candidate's, `VersionInfo::Contains` computes exactly the test
that the criterion is a prefix of the candidate: it returns true when the
criterion is a (proper or improper) prefix, and false when a compared
position differs (criterion "10.6" matches candidates "10.6.3" and
"10.6" but not "10.5"). -/
theorem C7_eq_prefix_semantics (ref cand : List Nat) (h : ref.length ≤ cand.length) :
    VersionInfo.containsVersion
      { op := NumericOp.kEQ, versionStyle := VersionStyle.kVersionStyleNumerical,
        version := some ref, version2 := none } cand
      = some (decide (cand.take ref.length = ref)) := by
  have hE := eqLoop_spec ref cand 0 (by omega)
  show eqLoop ref cand 0 = _
  rw [hE]
  congr 1
  rw [decide_eq_decide, take_eq_iff_forall ref cand h]
  constructor
  · intro hP j hj
    have := hP j hj
    rwa [Nat.zero_add] at this
  · intro hP j hj
    rw [Nat.zero_add]
    exact hP j hj

/-- Closed instances of C7 at the claim's example inputs: criterion
"10.6" matches "10.6.3" and "10.6" but not "10.5". -/
theorem C7_eq_prefix_semantics_witness :
    VersionInfo.containsVersion
      { op := NumericOp.kEQ, versionStyle := VersionStyle.kVersionStyleNumerical,
        version := some [10, 6], version2 := none } [10, 6, 3] = some true ∧
    VersionInfo.containsVersion
      { op := NumericOp.kEQ, versionStyle := VersionStyle.kVersionStyleNumerical,
        version := some [10, 6], version2 := none } [10, 6] = some true ∧
    VersionInfo.containsVersion
      { op := NumericOp.kEQ, versionStyle := VersionStyle.kVersionStyleNumerical,
        version := some [10, 6], version2 := none } [10, 5] = some false := by
  refine ⟨?_, ?_, ?_⟩
  · have := C7_eq_prefix_semantics [10, 6] [10, 6, 3] (by decide)
    simpa using this
  · have := C7_eq_prefix_semantics [10, 6] [10, 6] (by decide)
    simpa using this
  · have := C7_eq_prefix_semantics [10, 6] [10, 5] (by decide)
    simpa using this

/-- C4 (code bug): with the `Eq` criterion [10, 6, 0] and the candidate
[10, 6], the comparison loop of `VersionInfo::Contains` falls through its
guard (`i >= components.size() && components_reference[i] != 0` is false
because the reference component is zero) and then reads `components[2]`
out of bounds; the embedding's `Option`-returning index yields `none` on
this path, refuting the claim that the access stays in bounds and that
the criterion "10.6.0" contains the candidate "10.6". -/
theorem C4_eq_zero_extension_out_of_bounds :
    VersionInfo.containsVersion
      { op := NumericOp.kEQ, versionStyle := VersionStyle.kVersionStyleNumerical,
        version := some [10, 6, 0], version2 := none } [10, 6] = none := by
  decide

/-- C6: `Between` is asymmetric between the two matcher kinds. For floats,
`FloatInfo::Contains` accepts exactly the closed interval between the two
bounds taken in either order; for versions, `VersionInfo::Contains` with
`Between` and a first bound strictly greater than the second matches no
candidate at all. -/
theorem C6_between_asymmetry :
    (∀ b1 b2 v : ℚ,
        FloatInfo.containsFloat { op := NumericOp.kBetween, value := b1, value2 := b2 } v =
          true ↔ min b1 b2 ≤ v ∧ v ≤ max b1 b2) ∧
    (∀ b1 b2 cand : List Nat, compareTo b1 b2 = Ordering.gt →
        VersionInfo.containsVersion
          { op := NumericOp.kBetween, versionStyle := VersionStyle.kVersionStyleNumerical,
            version := some b1, version2 := some b2 } cand = some false) := by
  constructor
  · intro b1 b2 v
    show (decide ((b1 ≤ v ∧ v ≤ b2) ∨ (b2 ≤ v ∧ v ≤ b1)) = true) ↔ _
    rw [decide_eq_true_eq]
    rcases le_total b1 b2 with hb | hb
    · rw [min_eq_left hb, max_eq_right hb]
      constructor
      · rintro (⟨h1, h2⟩ | ⟨h1, h2⟩)
        · exact ⟨h1, h2⟩
        · exact ⟨le_trans hb h1, le_trans h2 hb⟩
      · exact fun hh => Or.inl hh
    · rw [min_eq_right hb, max_eq_left hb]
      constructor
      · rintro (⟨h1, h2⟩ | ⟨h1, h2⟩)
        · exact ⟨le_trans hb h1, le_trans h2 hb⟩
        · exact ⟨h1, h2⟩
      · exact fun hh => Or.inr hh
  · intro b1 b2 cand hgt
    show (if compareTo cand b1 = Ordering.lt then some false
          else some (decide (compareTo cand b2 ≠ Ordering.gt))) = some false
    by_cases hrel : compareTo cand b1 = Ordering.lt
    · rw [if_pos hrel]
    · rw [if_neg hrel]
      have hgt2 : compareTo cand b2 = Ordering.gt := by
        have hn1 : cand.length ≤ max cand.length (max b1.length b2.length) :=
          Nat.le_max_left _ _
        have hn2 : b1.length ≤ max cand.length (max b1.length b2.length) := by
          have := Nat.le_max_left b1.length b2.length
          have := Nat.le_max_right cand.length (max b1.length b2.length)
          omega
        have hn3 : b2.length ≤ max cand.length (max b1.length b2.length) := by
          have := Nat.le_max_right b1.length b2.length
          have := Nat.le_max_right cand.length (max b1.length b2.length)
          omega
        have e1 := compareTo_pad cand b1 (max cand.length (max b1.length b2.length)) hn1 hn2
        have e2 := compareTo_pad b1 b2 (max cand.length (max b1.length b2.length)) hn2 hn3
        have e3 := compareTo_pad cand b2 (max cand.length (max b1.length b2.length)) hn1 hn3
        rw [← e3]
        refine cmpList_trans_gt _ (padTo (max cand.length (max b1.length b2.length)) b1) _
          ?_ ?_ ?_ ?_
        · rw [padTo_length cand _ hn1, padTo_length b1 _ hn2]
        · rw [padTo_length b1 _ hn2, padTo_length b2 _ hn3]
        · rw [e1]
          exact hrel
        · rw [e2]
          exact hgt
      rw [decide_eq_false (not_not_intro hgt2)]

/-- Closed instances of C6: float bounds (10, 1) accept 5, while the
version criterion with bounds (10, 1) rejects the candidate 5. -/
theorem C6_between_asymmetry_witness :
    FloatInfo.containsFloat { op := NumericOp.kBetween, value := 10, value2 := 1 } 5 = true ∧
    VersionInfo.containsVersion
      { op := NumericOp.kBetween, versionStyle := VersionStyle.kVersionStyleNumerical,
        version := some [10], version2 := some [1] } [5] = some false := by
  constructor
  · exact (C6_between_asymmetry.1 10 1 5).mpr (by norm_num)
  · exact C6_between_asymmetry.2 [10] [1] [5] (by decide)

theorem checkSeq_eq_some_true (a b : Option Bool) :
    checkSeq a b = some true ↔ a = some true ∧ b = some true := by
  rcases a with _ | av
  · simp [checkSeq]
  · cases av <;> simp [checkSeq]

theorem exceptionsVeto_all_false (t : OsType) (v : List Nat) (g : GPUInfo) :
    ∀ l : List Entry, (∀ ex ∈ l, Entry.contains ex t v g = some false) →
      Entry.exceptionsVeto l t v g = some true := by
  intro l
  induction l with
  | nil => intro h; rw [Entry.exceptionsVeto]
  | cons ex rest ih =>
    intro h
    rw [Entry.exceptionsVeto, h ex (by simp)]
    exact ih (fun x hx => h x (by simp [hx]))

theorem exceptionsVeto_exists_true (t : OsType) (v : List Nat) (g : GPUInfo) :
    ∀ l : List Entry, (∀ ex ∈ l, Entry.contains ex t v g ≠ none) →
      (∃ ex ∈ l, Entry.contains ex t v g = some true) →
      Entry.exceptionsVeto l t v g = some false := by
  intro l
  induction l with
  | nil => intro _ h; simp at h
  | cons ex rest ih =>
    intro hd h
    rcases hx : Entry.contains ex t v g with _ | b
    · exact absurd hx (hd ex (by simp))
    · cases b
      · rw [Entry.exceptionsVeto, hx]
        apply ih (fun x hxm => hd x (by simp [hxm]))
        rcases h with ⟨ey, hey, hty⟩
        rcases List.mem_cons.mp hey with rfl | heyr
        · rw [hx] at hty
          simp at hty
        · exact ⟨ey, heyr, hty⟩
      · rw [Entry.exceptionsVeto, hx]

/-- C5: for an entry whose own criteria match, a single exception entry
that independently matches the same inputs forces the parent's
`Contains` to return false, and when no exception matches the parent's
match stands (the exceptions themselves are evaluated by the same
recursive `Contains`, at arbitrary nesting depth). -/
theorem C5_exceptions_veto (core : EntryCore) (exs : List Entry) (t : OsType)
    (v : List Nat) (g : GPUInfo) (hbase : core.criteriaMatch t v g = some true)
    (hdef : ∀ ex ∈ exs, Entry.contains ex t v g ≠ none) :
    ((∃ ex ∈ exs, Entry.contains ex t v g = some true) →
        Entry.contains (Entry.mk core exs) t v g = some false) ∧
    ((∀ ex ∈ exs, Entry.contains ex t v g = some false) →
        Entry.contains (Entry.mk core exs) t v g = some true) := by
  constructor
  · intro hex
    rw [Entry.contains, hbase]
    exact exceptionsVeto_exists_true t v g exs hdef hex
  · intro hall
    rw [Entry.contains, hbase]
    exact exceptionsVeto_all_false t v g exs hall

/-- Closed instance of C5: a wildcard entry with one wildcard exception
does not match the snapshot, while the same entry without the exception
does. -/
theorem C5_exceptions_veto_witness :
    Entry.contains (Entry.mk defaultEntryCore [Entry.mk defaultEntryCore []])
      OsType.kOsLinux [10] g0 = some false ∧
    Entry.contains (Entry.mk defaultEntryCore []) OsType.kOsLinux [10] g0 = some true := by
  have hx : Entry.contains (Entry.mk defaultEntryCore []) OsType.kOsLinux [10] g0 =
      some true :=
    (C5_exceptions_veto defaultEntryCore [] OsType.kOsLinux [10] g0 rfl (by simp)).2
      (by simp)
  refine ⟨?_, hx⟩
  refine (C5_exceptions_veto defaultEntryCore [Entry.mk defaultEntryCore []]
    OsType.kOsLinux [10] g0 rfl ?_).1 ?_
  · intro ex hex
    rcases List.mem_singleton.mp hex with rfl
    rw [hx]
    simp
  · exact ⟨Entry.mk defaultEntryCore [], by simp, hx⟩

/-- C8: an entry carrying a performance criterion whose corresponding
hardware score is unmeasured (zero) can never match, whatever the
criterion's operator (even `any`): the zero test precedes the operator
test and fails the entry closed. -/
theorem C8_unmeasured_perf_fails_closed (e : Entry) (t : OsType) (v : List Nat)
    (g : GPUInfo)
    (h : (e.core.perfGraphicsInfo.isSome = true ∧ g.perfGraphics = 0) ∨
         (e.core.perfGamingInfo.isSome = true ∧ g.perfGaming = 0) ∨
         (e.core.perfOverallInfo.isSome = true ∧ g.perfOverall = 0)) :
    Entry.contains e t v g ≠ some true := by
  intro hc
  obtain ⟨core, exs⟩ := e
  rw [Entry.contains] at hc
  have hcrit : core.criteriaMatch t v g = some true := by
    rcases hx : core.criteriaMatch t v g with _ | b
    · rw [hx] at hc
      simp at hc
    · cases b
      · rw [hx] at hc
        simp at hc
      · exact rfl
  simp only [EntryCore.criteriaMatch, checkSeq_eq_some_true] at hcrit
  obtain ⟨-, -, -, -, -, -, -, -, -, hpg, hpgam, hpov, -⟩ := hcrit
  simp only [Entry.core] at h
  rcases h with ⟨hs, hz⟩ | ⟨hs, hz⟩ | ⟨hs, hz⟩
  · obtain ⟨fi, hfi⟩ := Option.isSome_iff_exists.mp hs
    rw [hfi] at hpg
    simp [hz] at hpg
  · obtain ⟨fi, hfi⟩ := Option.isSome_iff_exists.mp hs
    rw [hfi] at hpgam
    simp [hz] at hpgam
  · obtain ⟨fi, hfi⟩ := Option.isSome_iff_exists.mp hs
    rw [hfi] at hpov
    simp [hz] at hpov

/-- Closed instance of C8: an entry whose `perf_graphics` criterion has
op `any` still fails against a snapshot whose graphics score is zero. -/
theorem C8_unmeasured_perf_fails_closed_witness :
    Entry.contains
      (Entry.mk { defaultEntryCore with
        perfGraphicsInfo := some { op := NumericOp.kAny, value := 0, value2 := 0 } } [])
      OsType.kOsLinux [10] g0 ≠ some true := by
  exact C8_unmeasured_perf_fails_closed _ OsType.kOsLinux [10] g0 (Or.inl ⟨rfl, rfl⟩)

theorem blacklistLoop_spec (t : OsType) (v : List Nat) (g : GPUInfo) :
    ∀ (l : List Entry) (type0 : Nat) (active0 : List Entry),
      (∀ e ∈ l, Entry.contains e t v g ≠ none) →
      blacklistLoop l t v g type0 active0 =
        some ((l.filter (fun e =>
                decide (Entry.contains e t v g = some true) && !e.disabled)).foldl
                (fun ty e => ty ||| e.featureType) type0,
              active0 ++ l.filter (fun e => decide (Entry.contains e t v g = some true))) := by
  intro l
  induction l with
  | nil =>
    intro type0 active0 _
    simp [blacklistLoop]
  | cons e rest ih =>
    intro type0 active0 hd
    have hdr : ∀ x ∈ rest, Entry.contains x t v g ≠ none :=
      fun x hxm => hd x (by simp [hxm])
    rcases hx : Entry.contains e t v g with _ | b
    · exact absurd hx (hd e (by simp))
    · cases b
      · rw [blacklistLoop, hx, ih type0 active0 hdr]
        simp [List.filter_cons, hx]
      · rw [blacklistLoop, hx, ih (if e.disabled then type0 else type0 ||| e.featureType)
          (active0 ++ [e]) hdr]
        rcases hdis : e.disabled with _ | _
        · simp [List.filter_cons, hx, hdis]
        · simp [List.filter_cons, hx, hdis]

/-- C9: over any loaded rule set and hardware snapshot (on which no
entry's evaluation hits the undefined-behavior path), the evaluator
returns the bitwise OR of the feature masks of the matching entries that
are not disabled, while the active-entries output collects every
matching entry, disabled or not. -/
theorem C9_evaluator_mask_and_actives (st : BlacklistState) (os : OsType)
    (v : List Nat) (g : GPUInfo)
    (h : ∀ e ∈ st.blacklist, Entry.contains e os v g ≠ none) :
    determineGpuFeatureType st os v g =
      some ((st.blacklist.filter (fun e =>
              decide (Entry.contains e os v g = some true) && !e.disabled)).foldl
              (fun ty e => ty ||| e.featureType) 0,
            { st with activeEntries :=
                st.blacklist.filter (fun e =>
                  decide (Entry.contains e os v g = some true)) }) := by
  rw [determineGpuFeatureType, blacklistLoop_spec os v g st.blacklist 0 [] h]
  simp

/-- Closed instance of C9: a disabled matching entry appears in the
active entries but contributes nothing to the mask; the resulting mask
comes from the enabled entry alone. -/
theorem C9_evaluator_mask_and_actives_witness :
    determineGpuFeatureType
      { browserVersion := [10], version := none, blacklist := [entryDisabled, entryEnabled],
        activeEntries := [], maxEntryId := 2, containsUnknownFields := false }
      OsType.kOsLinux [10] g0 =
      some (2,
        { browserVersion := [10], version := none,
          blacklist := [entryDisabled, entryEnabled],
          activeEntries := [entryDisabled, entryEnabled], maxEntryId := 2,
          containsUnknownFields := false }) := by
  have h1 : Entry.contains entryDisabled OsType.kOsLinux [10] g0 = some true := by
    rw [entryDisabled, Entry.contains]
    have hb : EntryCore.criteriaMatch
        { defaultEntryCore with id := 1, disabled := true, featureType := 4 }
        OsType.kOsLinux [10] g0 = some true := rfl
    rw [hb, Entry.exceptionsVeto]
  have h2 : Entry.contains entryEnabled OsType.kOsLinux [10] g0 = some true := by
    rw [entryEnabled, Entry.contains]
    have hb : EntryCore.criteriaMatch
        { defaultEntryCore with id := 2, featureType := 2 }
        OsType.kOsLinux [10] g0 = some true := rfl
    rw [hb, Entry.exceptionsVeto]
  have h : ∀ e ∈ [entryDisabled, entryEnabled],
      Entry.contains e OsType.kOsLinux [10] g0 ≠ none := by
    intro e he
    rcases List.mem_cons.mp he with rfl | he2
    · rw [h1]
      simp
    · rcases List.mem_singleton.mp he2 with rfl
      rw [h2]
      simp
  rw [C9_evaluator_mask_and_actives _ OsType.kOsLinux [10] g0 h]
  simp only [List.filter_cons, List.filter_nil, h1, h2]
  norm_num [entryDisabled, entryEnabled, Entry.disabled, Entry.core, Entry.featureType,
    defaultEntryCore]

theorem loadLoop_ok_flags (bv : List Nat) :
    ∀ (items : List GValue) (entries0 : List Entry) (maxId : Nat) (unknown : Bool)
      (res : List Entry) (maxId2 : Nat) (unk2 : Bool),
      (∀ e ∈ entries0, e.core.containsUnknownFields = false) →
      loadLoop bv items entries0 maxId unknown = LoopResult.ok res maxId2 unk2 →
      ∀ e ∈ res, e.core.containsUnknownFields = false := by
  intro items
  induction items with
  | nil =>
    intro entries0 maxId unknown res maxId2 unk2 hInv h e he
    rw [loadLoop] at h
    cases h
    exact hInv e he
  | cons item rest ih =>
    intro entries0 maxId unknown res maxId2 unk2 hInv h
    rcases item with b | iv | sv | lv | dv
    · rw [loadLoop] at h
      simp at h
      exact fun exd hx => GValue.noConfusion hx
    · rw [loadLoop] at h
      simp at h
      exact fun exd hx => GValue.noConfusion hx
    · rw [loadLoop] at h
      simp at h
      exact fun exd hx => GValue.noConfusion hx
    · rw [loadLoop] at h
      simp at h
      exact fun exd hx => GValue.noConfusion hx
    · rw [loadLoop] at h
      rcases hS : isEntrySupportedByBrowserVersion bv dv with _ | bvs
      · rw [hS] at h
        simp at h
      · rcases bvs with _ | _ | _
        · rw [hS] at h
          rcases hE : getGpuBlacklistEntryFromValue dv true with _ | entry
          · rw [hE] at h
            simp at h
          · rw [hE] at h
            rcases hF : entry.core.containsUnknownFields with _ | _
            · simp only [hF, Bool.false_eq_true, if_false] at h
              refine ih (entries0 ++ [entry]) _ _ res maxId2 unk2 ?_ h
              intro x hx
              rcases List.mem_append.mp hx with hx1 | hx2
              · exact hInv x hx1
              · rcases List.mem_singleton.mp hx2 with rfl
                exact hF
            · simp only [hF, if_true] at h
              exact ih entries0 _ _ res maxId2 unk2 hInv h
        · rw [hS] at h
          exact ih entries0 _ _ res maxId2 unk2 hInv h
        · rw [hS] at h
          simp at h

/-- C1 (amended): a top-level entry whose own field set contains
unrecognized keys is dropped by the loader rather than retained: after a
successful load no entry of the resulting rule set carries
`has_unknown_fields` (only the aggregate diagnostic flag records that
such an entry was skipped; entries with unrecognized feature names, by
contrast, are the ones kept and flagged). -/
theorem C1_unknown_field_entries_dropped (parsedJson : GDict) (osFilter : OsFilter)
    (myOs : OsType) (st st' : BlacklistState)
    (h : loadGpuBlacklist parsedJson osFilter myOs st = some (true, st')) :
    st'.blacklist.all (fun e => !e.core.containsUnknownFields) = true := by
  simp only [loadGpuBlacklist] at h
  split at h
  · simp at h
  · split at h
    · simp at h
    · split at h
      · simp at h
      · simp at h
      · rename_i lst entries maxId unknown heq
        simp only [Option.some.injEq, Prod.mk.injEq] at h
        obtain ⟨-, rfl⟩ := h
        rw [List.all_eq_true]
        intro e he
        have hmem : e ∈ entries := (List.mem_filter.mp he).1
        have hflag := loadLoop_ok_flags st.browserVersion _ [] 0 false entries maxId unknown
          (by simp) heq e hmem
        simp [hflag]

/-- C1 counterexample: at this concrete rule set, the single entry (id 1,
blacklist [webgl], plus the unrecognized key `unknown_key`) parses, and
the load succeeds — but the resulting rule set is empty with the
aggregate unknown-fields flag set and the max entry id tracked: the
flagged entry was dropped, not retained for evaluation. -/
theorem C1_counterexample_entry_dropped :
    (loadGpuBlacklist jsonC1 OsFilter.kAllOs OsType.kOsLinux emptyState).map
      (fun r => (r.1, r.2.blacklist.length, r.2.containsUnknownFields, r.2.maxEntryId)) =
      some (true, 0, true, 1) := by
  decide

/-- Closed instance of C1 at the clean rule set `jsonOK`. -/
theorem C1_unknown_field_entries_dropped_witness :
    stOK.blacklist.all (fun e => !e.core.containsUnknownFields) = true :=
  C1_unknown_field_entries_dropped jsonOK OsFilter.kAllOs OsType.kOsLinux emptyState stOK
    rfl

/-- C2 (amended): a failed reload leaves the entry list, the active
entries, the max entry id and the aggregate unknown-fields flag of the
previous state untouched — but not the stored schema version, which is
overwritten before any of the failure returns. -/
theorem C2_failed_load_preserves_rule_set (parsedJson : GDict) (osFilter : OsFilter)
    (myOs : OsType) (st st' : BlacklistState)
    (h : loadGpuBlacklist parsedJson osFilter myOs st = some (false, st')) :
    st'.blacklist = st.blacklist ∧ st'.activeEntries = st.activeEntries ∧
      st'.maxEntryId = st.maxEntryId ∧
      st'.containsUnknownFields = st.containsUnknownFields := by
  simp only [loadGpuBlacklist] at h
  split at h
  · simp only [Option.some.injEq, Prod.mk.injEq] at h
    obtain ⟨-, rfl⟩ := h
    exact ⟨rfl, rfl, rfl, rfl⟩
  · split at h
    · simp only [Option.some.injEq, Prod.mk.injEq] at h
      obtain ⟨-, rfl⟩ := h
      exact ⟨rfl, rfl, rfl, rfl⟩
    · split at h
      · simp at h
      · simp only [Option.some.injEq, Prod.mk.injEq] at h
        obtain ⟨-, rfl⟩ := h
        exact ⟨rfl, rfl, rfl, rfl⟩
      · simp at h

/-- C2 counterexample: reloading `jsonNoEntries` (schema version 2.0,
no entries list) over a state holding schema version 1.0 fails — yet the
stored schema version has become 2.0: the failed load does not leave
every observable component unchanged. -/
theorem C2_counterexample_version_overwritten :
    (loadGpuBlacklist jsonNoEntries OsFilter.kAllOs OsType.kOsLinux stC2).map
      (fun r => (r.1, r.2.version)) = some (false, some [2, 0]) ∧
    stC2.version = some [1, 0] := by
  exact ⟨by decide, rfl⟩

/-- Closed instance of C2 at the concrete failing reload. -/
theorem C2_failed_load_preserves_rule_set_witness :
    stC2After.blacklist = stC2.blacklist ∧ stC2After.activeEntries = stC2.activeEntries ∧
      stC2After.maxEntryId = stC2.maxEntryId ∧
      stC2After.containsUnknownFields = stC2.containsUnknownFields :=
  C2_failed_load_preserves_rule_set jsonNoEntries OsFilter.kAllOs OsType.kOsLinux stC2
    stC2After rfl

/-- C3 (amended): an optional criterion that fails to parse is not
treated as absent — it makes its whole entry fail to parse and the whole
load fail. For every unrecognized os type string, the entry parser
returns null on an entry carrying that os block, and a load whose entry
list contains such an entry returns failure, even though `id` and
`blacklist` are well formed. -/
theorem C3_malformed_criterion_fails_load (t : String)
    (ht : stringToOsType t = OsType.kOsUnknown) (osFilter : OsFilter) (myOs : OsType)
    (st : BlacklistState) :
    getGpuBlacklistEntryFromValue (entryDictOs t) true = none ∧
    (loadGpuBlacklist (jsonOs t) osFilter myOs st).map (fun r => r.1) = some false := by
  have hd : getDictionary (entryDictOs t) "os" = some [("type", GValue.vStr t)] := rfl
  have hd2 : getDictionary [("type", GValue.vStr t)] "version" = none := rfl
  have hgs : getString [("type", GValue.vStr t)] "type" = some t := rfl
  have hOs : ∀ ec : EntryCore × Nat, parseOsField (entryDictOs t) ec = none := by
    intro ec
    simp only [parseOsField, hd, hd2, hgs, Option.getD_some]
    simp [mkOsInfo, OsInfo.isValidOs, ht]
  have hFields : ∀ ec : EntryCore × Nat, parseEntryFields (entryDictOs t) ec = none := by
    intro ec
    rw [parseEntryFields]
    obtain ⟨ec1, he1⟩ : ∃ x, parseDescriptionField (entryDictOs t) ec = some x := ⟨_, rfl⟩
    obtain ⟨ec2, he2⟩ : ∃ x, parseCrBugsField (entryDictOs t) ec1 = some x := ⟨_, rfl⟩
    obtain ⟨ec3, he3⟩ : ∃ x, parseWebkitBugsField (entryDictOs t) ec2 = some x := ⟨_, rfl⟩
    rw [he1, Option.some_bind, he2, Option.some_bind, he3, Option.some_bind, hOs ec3]
    simp
  have hTop : entryFromValueTop (entryDictOs t) = none := by
    rw [entryFromValueTop]
    obtain ⟨ecA, heA⟩ : ∃ x, parseIdField (entryDictOs t) (defaultEntryCore, 0) = some x :=
      ⟨_, rfl⟩
    obtain ⟨ecB, heB⟩ : ∃ x, parseDisabledField (entryDictOs t) ecA = some x := ⟨_, rfl⟩
    simp only [heA, heB, hFields]
  have hEntry : getGpuBlacklistEntryFromValue (entryDictOs t) true = none := by
    rw [getGpuBlacklistEntryFromValue, if_pos rfl]
    exact hTop
  refine ⟨hEntry, ?_⟩
  have hvs : getString (jsonOs t) "version" = some "1.0" := rfl
  have hv : parseVersionString "1.0" = some [1, 0] := rfl
  have hl : getList (jsonOs t) "entries" = some [GValue.vDict (entryDictOs t)] := rfl
  have hbvd : getDictionary (entryDictOs t) "browser_version" = none := rfl
  have hbv : isEntrySupportedByBrowserVersion st.browserVersion (entryDictOs t) =
      some BrowserVersionSupport.kSupported := by
    rw [isEntrySupportedByBrowserVersion, hbvd]
  have hloop : loadLoop st.browserVersion [GValue.vDict (entryDictOs t)] [] 0 false =
      LoopResult.failed := by
    rw [loadLoop, hbv, hEntry]
  simp only [loadGpuBlacklist, hvs, Option.getD_some, hv, hl, hloop]
  rfl

/-- C3 counterexample: the claim says a load whose entry carries a
malformed optional criterion (here an os block with an unrecognized type)
still succeeds; at this concrete input the load fails. -/
theorem C3_counterexample_load_fails :
    (loadGpuBlacklist (jsonOs "bogus") OsFilter.kAllOs OsType.kOsLinux emptyState).map
      (fun r => r.1) = some false := by
  decide

/-- Closed instance of C3 at the os type string "bogus". -/
theorem C3_malformed_criterion_fails_load_witness :
    getGpuBlacklistEntryFromValue (entryDictOs "bogus") true = none ∧
    (loadGpuBlacklist (jsonOs "bogus") OsFilter.kCurrentOsOnly OsType.kOsWin emptyState).map
      (fun r => r.1) = some false :=
  C3_malformed_criterion_fails_load "bogus" (by decide) OsFilter.kCurrentOsOnly
    OsType.kOsWin emptyState

/-- C10: `GetVersion` formats the stored schema version as
`major.minor` only when it has exactly two components and returns the
empty string otherwise — in particular after successfully loading a rule
set whose schema version is the three-component "1.2.3". -/
theorem C10_getVersion_two_components_only (st : BlacklistState) :
    (∀ a b : Nat, st.version = some [a, b] →
        getVersion st = Nat.repr a ++ "." ++ Nat.repr b) ∧
    (∀ comps : List Nat, st.version = some comps → comps.length ≠ 2 →
        getVersion st = "") ∧
    (loadGpuBlacklist jsonV123 OsFilter.kAllOs OsType.kOsLinux emptyState).map
      (fun r => (r.1, r.2.version, getVersion r.2)) = some (true, some [1, 2, 3], "") := by
  refine ⟨?_, ?_, by decide⟩
  · intro a b hv
    simp only [getVersion, hv]
    norm_num
  · intro comps hv hlen
    simp only [getVersion, hv]
    rw [if_pos hlen]

/-- Closed instances of C10: a two-component stored version is formatted,
a three-component one yields the empty string. -/
theorem C10_getVersion_two_components_only_witness :
    getVersion { browserVersion := [], version := some [4, 2], blacklist := [],
                 activeEntries := [], maxEntryId := 0,
                 containsUnknownFields := false } = "4.2" ∧
    getVersion { browserVersion := [], version := some [1, 2, 3], blacklist := [],
                 activeEntries := [], maxEntryId := 0,
                 containsUnknownFields := false } = "" := by
  constructor
  · rw [(C10_getVersion_two_components_only _).1 4 2 rfl]
    decide
  · exact (C10_getVersion_two_components_only _).2.1 [1, 2, 3] rfl (by decide)
